import Mathlib

/-
  Shallow embedding of the public C API surface of the ZeroTier One network
  engine (include/ZeroTierOne.h) together with the behaviour the header
  documents for the engine entry points, and proofs of the specification
  claims about it.
-/

namespace ZeroTier

/-! ## Core constants (ZeroTierOne.h lines 58-144) -/

/-- Default UDP port for devices running a ZeroTier endpoint. -/
def ZT_DEFAULT_PORT : Nat := 9993

/-- Maximum MTU for ZeroTier virtual networks. -/
def ZT_MAX_MTU : Nat := 2800

/-- Maximum length of network short name. -/
def ZT_MAX_NETWORK_SHORT_NAME_LENGTH : Nat := 255

/-- Maximum number of statically assigned IP addresses per network endpoint. -/
def ZT_MAX_ZT_ASSIGNED_ADDRESSES : Nat := 16

/-- Maximum number of multicast group subscriptions per network. -/
def ZT_MAX_NETWORK_MULTICAST_SUBSCRIPTIONS : Nat := 4096

/-- Maximum number of direct network paths to a given peer. -/
def ZT_MAX_PEER_NETWORK_PATHS : Nat := 4

/-- Maximum number of hops in a ZeroTier circuit test. -/
def ZT_CIRCUIT_TEST_MAX_HOPS : Nat := 512

/-- Maximum number of addresses per hop in a circuit test. -/
def ZT_CIRCUIT_TEST_MAX_HOP_BREADTH : Nat := 256

/-- Maximum number of cluster members. -/
def ZT_CLUSTER_MAX_MEMBERS : Nat := 128

/-- Maximum allowed cluster message length in bytes: the C macro is
written `(1500 - 48)`. -/
def ZT_CLUSTER_MAX_MESSAGE_LENGTH : Nat := 1500 - 48

/-! ## enum ZT_ResultCode (ZeroTierOne.h lines 163-203) -/

/-- Function return code: OK (0) or error results. -/
inductive ZT_ResultCode where
  | ZT_RESULT_OK
  | ZT_RESULT_FATAL_ERROR_OUT_OF_MEMORY
  | ZT_RESULT_FATAL_ERROR_DATA_STORE_FAILED
  | ZT_RESULT_FATAL_ERROR_INTERNAL
  | ZT_RESULT_ERROR_NETWORK_NOT_FOUND
  | ZT_RESULT_ERROR_UNSUPPORTED_OPERATION
  | ZT_RESULT_ERROR_BAD_PARAMETER
deriving DecidableEq, Repr, Fintype

/-- Numeric value of each enumerator, exactly as assigned in the C enum. -/
def ZT_ResultCode.toInt : ZT_ResultCode → Int
  | .ZT_RESULT_OK => 0
  | .ZT_RESULT_FATAL_ERROR_OUT_OF_MEMORY => 1
  | .ZT_RESULT_FATAL_ERROR_DATA_STORE_FAILED => 2
  | .ZT_RESULT_FATAL_ERROR_INTERNAL => 3
  | .ZT_RESULT_ERROR_NETWORK_NOT_FOUND => 1000
  | .ZT_RESULT_ERROR_UNSUPPORTED_OPERATION => 1001
  | .ZT_RESULT_ERROR_BAD_PARAMETER => 1002

/-- The C macro `ZT_ResultCode_isFatal(x)`, defined as
`(((int)(x)) > 0)&&(((int)(x)) < 1000)`. -/
def ZT_ResultCode_isFatal (x : Int) : Bool :=
  (0 < x) && (x < 1000)

/-! ## Claims C1, C2, C9 -/

/-- C1 counterexample: the claim that fatality coincides with the numeric
range below 1000 over every result code an entry point may return is false:
ZT_RESULT_OK has numeric value 0, which is below 1000, yet
ZT_ResultCode_isFatal(0) is false. -/
theorem C1_counterexample_ok_below_1000_not_fatal :
    ¬ (∀ c : ZT_ResultCode,
        (ZT_ResultCode_isFatal c.toInt = true ↔ c.toInt < 1000)) := by
  intro h
  have h0 := (h ZT_ResultCode.ZT_RESULT_OK).mpr (by decide)
  exact absurd h0 (by decide)

/-- C1 (amended): restricted to the error codes (every result code other
than ZT_RESULT_OK), fatality is decided purely by numeric range: a code is
fatal exactly when its value is below 1000, and a non-fatal error exactly
when its value is at least 1000. -/
theorem C1_fatal_iff_below_1000 (c : ZT_ResultCode)
    (h : c ≠ ZT_ResultCode.ZT_RESULT_OK) :
    (ZT_ResultCode_isFatal c.toInt = true ↔ c.toInt < 1000) ∧
    (ZT_ResultCode_isFatal c.toInt = false ↔ 1000 ≤ c.toInt) := by
  revert h
  cases c <;> simp_all <;> decide

/-- C1 witness: the amended statement applied at the concrete error code
ZT_RESULT_FATAL_ERROR_OUT_OF_MEMORY. -/
theorem C1_fatal_iff_below_1000_witness :
    (ZT_ResultCode_isFatal
        ZT_ResultCode.ZT_RESULT_FATAL_ERROR_OUT_OF_MEMORY.toInt = true ↔
      ZT_ResultCode.ZT_RESULT_FATAL_ERROR_OUT_OF_MEMORY.toInt < 1000) ∧
    (ZT_ResultCode_isFatal
        ZT_ResultCode.ZT_RESULT_FATAL_ERROR_OUT_OF_MEMORY.toInt = false ↔
      1000 ≤ ZT_ResultCode.ZT_RESULT_FATAL_ERROR_OUT_OF_MEMORY.toInt) :=
  C1_fatal_iff_below_1000 ZT_ResultCode.ZT_RESULT_FATAL_ERROR_OUT_OF_MEMORY
    (by decide)

/-- C2: the entry-point result codes take exactly the specified numeric
values (OK=0; fatal OUT_OF_MEMORY=1, DATA_STORE_FAILED=2, INTERNAL=3;
non-fatal NETWORK_NOT_FOUND=1000, UNSUPPORTED_OPERATION=1001,
BAD_PARAMETER=1002), and ZT_ResultCode_isFatal holds of a defined code
exactly when its value is one of 1, 2, 3. -/
theorem C2_result_code_values :
    ZT_ResultCode.ZT_RESULT_OK.toInt = 0 ∧
    ZT_ResultCode.ZT_RESULT_FATAL_ERROR_OUT_OF_MEMORY.toInt = 1 ∧
    ZT_ResultCode.ZT_RESULT_FATAL_ERROR_DATA_STORE_FAILED.toInt = 2 ∧
    ZT_ResultCode.ZT_RESULT_FATAL_ERROR_INTERNAL.toInt = 3 ∧
    ZT_ResultCode.ZT_RESULT_ERROR_NETWORK_NOT_FOUND.toInt = 1000 ∧
    ZT_ResultCode.ZT_RESULT_ERROR_UNSUPPORTED_OPERATION.toInt = 1001 ∧
    ZT_ResultCode.ZT_RESULT_ERROR_BAD_PARAMETER.toInt = 1002 ∧
    (∀ c : ZT_ResultCode,
      ZT_ResultCode_isFatal c.toInt = true ↔
        (c.toInt = 1 ∨ c.toInt = 2 ∨ c.toInt = 3)) := by
  refine ⟨rfl, rfl, rfl, rfl, rfl, rfl, rfl, ?_⟩
  intro c
  cases c <;> decide

/-! ## Peer and path structures (ZeroTierOne.h lines 436-694) -/

/-- What trust hierarchy role does this peer have (enum ZT_PeerRole). -/
inductive ZT_PeerRole where
  | ZT_PEER_ROLE_LEAF
  | ZT_PEER_ROLE_RELAY
  | ZT_PEER_ROLE_ROOT
deriving DecidableEq, Repr

/-- The C type struct sockaddr_storage, an OS-defined socket address blob,
embedded as its raw bytes. -/
structure sockaddr_storage where
  data : List Nat
deriving DecidableEq, Repr

/-- The C struct ZT_PeerPhysicalPath: physical network path to a peer. -/
structure ZT_PeerPhysicalPath where
  address : sockaddr_storage
  lastSend : Nat
  lastReceive : Nat
  active : Int
  preferred : Int
deriving DecidableEq, Repr

/-- The C struct ZT_Peer: peer status result buffer. The C member
`ZT_PeerPhysicalPath paths[ZT_MAX_PEER_NETWORK_PATHS]` is a fixed array of
which the first pathCount entries are valid; it is embedded as the list of
valid entries, so pathCount is the length of that list. -/
structure ZT_Peer where
  address : Nat
  lastUnicastFrame : Nat
  lastMulticastFrame : Nat
  versionMajor : Int
  versionMinor : Int
  versionRev : Int
  latency : Nat
  role : ZT_PeerRole
  paths : List ZT_PeerPhysicalPath
deriving DecidableEq, Repr

/-- Number of paths (the C pathCount field, documented as the size of
paths[]). -/
def ZT_Peer.pathCount (p : ZT_Peer) : Nat := p.paths.length

/-- Modelled from the spec: the per-peer path-table eviction policy
(Peer.cpp, not under src/): when room must be made in a full path table,
the least-recently-received path is removed
("eviction: least-recently-received"). -/
def evictLeastRecentlyReceived (ps : List ZT_PeerPhysicalPath) :
    List ZT_PeerPhysicalPath :=
  match ps.argmin (fun p => p.lastReceive) with
  | none => ps
  | some victim => ps.erase victim

/-- Modelled from the spec: learning a new direct path to a peer
(Peer.cpp, not under src/): the new path is recorded in the table; if the
table already holds ZT_MAX_PEER_NETWORK_PATHS entries, the
least-recently-received entry is evicted first. -/
def addPath (ps : List ZT_PeerPhysicalPath) (q : ZT_PeerPhysicalPath) :
    List ZT_PeerPhysicalPath :=
  if ps.length < ZT_MAX_PEER_NETWORK_PATHS then q :: ps
  else q :: evictLeastRecentlyReceived ps

/-- Modelled from the spec: the engine's peer report (Node::peers, not
under src/) copies a peer's current path table into the fixed
ZT_MAX_PEER_NETWORK_PATHS-slot paths array of a ZT_Peer record, setting
pathCount accordingly; the path table itself is built by addPath starting
from no paths. -/
def peerReport (address : Nat)
    (pathEvents : List ZT_PeerPhysicalPath) : ZT_Peer :=
  { address := address
    lastUnicastFrame := 0
    lastMulticastFrame := 0
    versionMajor := -1
    versionMinor := -1
    versionRev := -1
    latency := 0
    role := ZT_PeerRole.ZT_PEER_ROLE_LEAF
    paths := pathEvents.foldl addPath [] }

lemma length_evictLeastRecentlyReceived (ps : List ZT_PeerPhysicalPath)
    (h : ps ≠ []) :
    (evictLeastRecentlyReceived ps).length = ps.length - 1 := by
  unfold evictLeastRecentlyReceived
  split
  · next hm => exact absurd (List.argmin_eq_none.mp hm) h
  · next v hm =>
    exact List.length_erase_of_mem (List.argmin_mem (Option.mem_def.mpr hm))

lemma addPath_length_le (ps : List ZT_PeerPhysicalPath)
    (q : ZT_PeerPhysicalPath) (h : ps.length ≤ ZT_MAX_PEER_NETWORK_PATHS) :
    (addPath ps q).length ≤ ZT_MAX_PEER_NETWORK_PATHS := by
  unfold addPath
  split
  · next hlt => simpa using hlt
  · next hge =>
    have h4 : ps.length = ZT_MAX_PEER_NETWORK_PATHS :=
      le_antisymm h (Nat.le_of_not_lt hge)
    have hne : ps ≠ [] := by
      intro e
      rw [e] at h4
      simp [ZT_MAX_PEER_NETWORK_PATHS] at h4
    simp [List.length_cons, length_evictLeastRecentlyReceived ps hne, h4,
      ZT_MAX_PEER_NETWORK_PATHS]

lemma foldl_addPath_length_le (events : List ZT_PeerPhysicalPath)
    (ps : List ZT_PeerPhysicalPath)
    (h : ps.length ≤ ZT_MAX_PEER_NETWORK_PATHS) :
    (events.foldl addPath ps).length ≤ ZT_MAX_PEER_NETWORK_PATHS := by
  induction events generalizing ps with
  | nil => simpa using h
  | cons e es ih => exact ih _ (addPath_length_le _ _ h)

/-- C3: for every peer the number of direct network paths never exceeds 4:
ZT_MAX_PEER_NETWORK_PATHS equals 4, and every ZT_Peer record reported by
the engine, after any sequence of learned paths, has pathCount at most
ZT_MAX_PEER_NETWORK_PATHS (its paths being the valid entries of the
fixed-capacity paths array). -/
theorem C3_peer_paths_at_most_four :
    ZT_MAX_PEER_NETWORK_PATHS = 4 ∧
    ∀ (address : Nat) (pathEvents : List ZT_PeerPhysicalPath),
      (peerReport address pathEvents).pathCount ≤ ZT_MAX_PEER_NETWORK_PATHS := by
  refine ⟨rfl, ?_⟩
  intro address pathEvents
  exact foldl_addPath_length_le pathEvents [] (by simp)

/-- C9: the successful result code is never classified as fatal:
ZT_ResultCode_isFatal applied to the value of ZT_RESULT_OK evaluates to
false, even though that value (0) is numerically below 1000, because the
macro additionally requires the value to be strictly greater than 0. -/
theorem C9_ok_not_fatal :
    ZT_ResultCode_isFatal ZT_ResultCode.ZT_RESULT_OK.toInt = false ∧
    ZT_ResultCode.ZT_RESULT_OK.toInt < 1000 ∧
    ¬ (0 < ZT_ResultCode.ZT_RESULT_OK.toInt) := by
  decide

/-! ## Virtual network structures (ZeroTierOne.h lines 336-598) -/

/-- Virtual network status codes (enum ZT_VirtualNetworkStatus). -/
inductive ZT_VirtualNetworkStatus where
  | ZT_NETWORK_STATUS_REQUESTING_CONFIGURATION
  | ZT_NETWORK_STATUS_OK
  | ZT_NETWORK_STATUS_ACCESS_DENIED
  | ZT_NETWORK_STATUS_NOT_FOUND
  | ZT_NETWORK_STATUS_PORT_ERROR
  | ZT_NETWORK_STATUS_CLIENT_TOO_OLD
deriving DecidableEq, Repr

/-- Virtual network type codes (enum ZT_VirtualNetworkType). -/
inductive ZT_VirtualNetworkType where
  | ZT_NETWORK_TYPE_PRIVATE
  | ZT_NETWORK_TYPE_PUBLIC
deriving DecidableEq, Repr

/-- Virtual network configuration update type
(enum ZT_VirtualNetworkConfigOperation, values 1-4). -/
inductive ZT_VirtualNetworkConfigOperation where
  | ZT_VIRTUAL_NETWORK_CONFIG_OPERATION_UP
  | ZT_VIRTUAL_NETWORK_CONFIG_OPERATION_CONFIG_UPDATE
  | ZT_VIRTUAL_NETWORK_CONFIG_OPERATION_DOWN
  | ZT_VIRTUAL_NETWORK_CONFIG_OPERATION_DESTROY
deriving DecidableEq, Repr

/-- The C struct ZT_MulticastGroup: an Ethernet multicast group, a MAC
(least significant 48 bits) plus additional distinguishing information. -/
structure ZT_MulticastGroup where
  mac : Nat
  adi : Nat
deriving DecidableEq, Repr

/-- The C struct ZT_VirtualNetworkConfig. The fixed C arrays
`multicastSubscriptions[ZT_MAX_NETWORK_MULTICAST_SUBSCRIPTIONS]` and
`assignedAddresses[ZT_MAX_ZT_ASSIGNED_ADDRESSES]` hold
multicastSubscriptionCount and assignedAddressCount valid entries; they
are embedded as the lists of valid entries, the counts being their
lengths. -/
structure ZT_VirtualNetworkConfig where
  nwid : Nat
  mac : Nat
  name : String
  status : ZT_VirtualNetworkStatus
  type : ZT_VirtualNetworkType
  mtu : Nat
  dhcp : Int
  bridge : Int
  broadcastEnabled : Int
  portError : Int
  enabled : Int
  netconfRevision : Nat
  multicastSubscriptions : List ZT_MulticastGroup
  assignedAddresses : List sockaddr_storage
deriving DecidableEq, Repr

/-- Number of multicast group subscriptions (the C
multicastSubscriptionCount field). -/
def ZT_VirtualNetworkConfig.multicastSubscriptionCount
    (c : ZT_VirtualNetworkConfig) : Nat :=
  c.multicastSubscriptions.length

/-- Number of assigned addresses (the C assignedAddressCount field). -/
def ZT_VirtualNetworkConfig.assignedAddressCount
    (c : ZT_VirtualNetworkConfig) : Nat :=
  c.assignedAddresses.length

/-- Modelled from the spec: validation of a received network
configuration (NetworkConfig, not under src/): the data model requires
`mtu ≤ 2800`, so a configuration whose MTU exceeds ZT_MAX_MTU is rejected
and never applied. -/
def acceptNetworkConfigMtu (m : Nat) : Option Nat :=
  if m ≤ ZT_MAX_MTU then some m else none

/-- Modelled from the spec: the engine's network status report
(Node::networkConfig, not under src/) copies the network's multicast
subscription set into the fixed
ZT_MAX_NETWORK_MULTICAST_SUBSCRIPTIONS-slot array of the returned
ZT_VirtualNetworkConfig, writing at most the array's capacity, and copies
the applied configuration's MTU. -/
def networkStatusReport (nwid mac : Nat) (status : ZT_VirtualNetworkStatus)
    (mtu : Nat) (subs : List ZT_MulticastGroup) : ZT_VirtualNetworkConfig :=
  { nwid := nwid
    mac := mac
    name := ""
    status := status
    type := ZT_VirtualNetworkType.ZT_NETWORK_TYPE_PRIVATE
    mtu := mtu
    dhcp := 0
    bridge := 0
    broadcastEnabled := 0
    portError := 0
    enabled := 1
    netconfRevision := 0
    multicastSubscriptions := subs.take ZT_MAX_NETWORK_MULTICAST_SUBSCRIPTIONS
    assignedAddresses := [] }

/-- C8: the wire constants equal their specified values: ZT_DEFAULT_PORT
is 9993 and ZT_MAX_MTU is 2800, and every virtual-network MTU reported in
a ZT_VirtualNetworkConfig (the MTU of an applied, validated network
configuration) is at most ZT_MAX_MTU. -/
theorem C8_wire_constants (nwid mac : Nat)
    (status : ZT_VirtualNetworkStatus) (subs : List ZT_MulticastGroup)
    (m r : Nat) (h : acceptNetworkConfigMtu m = some r) :
    ZT_DEFAULT_PORT = 9993 ∧ ZT_MAX_MTU = 2800 ∧
    (networkStatusReport nwid mac status r subs).mtu ≤ ZT_MAX_MTU := by
  refine ⟨rfl, rfl, ?_⟩
  unfold acceptNetworkConfigMtu at h
  split at h
  · next hle =>
    cases h
    simpa [networkStatusReport] using hle
  · exact absurd h (by simp)

/-- C8 witness: the theorem applied at a concrete accepted configuration
with MTU 1500. -/
theorem C8_wire_constants_witness :
    acceptNetworkConfigMtu 1500 = some 1500 ∧
    (ZT_DEFAULT_PORT = 9993 ∧ ZT_MAX_MTU = 2800 ∧
      (networkStatusReport 0 0
          ZT_VirtualNetworkStatus.ZT_NETWORK_STATUS_OK 1500 []).mtu ≤
        ZT_MAX_MTU) :=
  ⟨by decide,
   C8_wire_constants 0 0 ZT_VirtualNetworkStatus.ZT_NETWORK_STATUS_OK []
     1500 1500 (by decide)⟩

/-- C10: per-network multicast subscriptions are bounded by 4096:
ZT_MAX_NETWORK_MULTICAST_SUBSCRIPTIONS equals 4096, and every
ZT_VirtualNetworkConfig the engine reports has
multicastSubscriptionCount at most that bound, its subscriptions stored
in the fixed array of exactly that capacity. -/
theorem C10_multicast_subscription_count_bounded :
    ZT_MAX_NETWORK_MULTICAST_SUBSCRIPTIONS = 4096 ∧
    ∀ (nwid mac : Nat) (status : ZT_VirtualNetworkStatus) (mtu : Nat)
      (subs : List ZT_MulticastGroup),
      (networkStatusReport nwid mac status mtu
          subs).multicastSubscriptionCount ≤
        ZT_MAX_NETWORK_MULTICAST_SUBSCRIPTIONS := by
  refine ⟨rfl, ?_⟩
  intro nwid mac status mtu subs
  simp [networkStatusReport,
    ZT_VirtualNetworkConfig.multicastSubscriptionCount]

/-! ## Cluster messages and circuit tests -/

/-- Modelled from the spec: the cluster message sender (Cluster.cpp, not
under src/): a message is handed to the host-provided cluster send
function only when its length is at most ZT_CLUSTER_MAX_MESSAGE_LENGTH
bytes; a longer message is never sent. -/
def clusterSendMessage (msg : List Nat) : Option (List Nat) :=
  if msg.length ≤ ZT_CLUSTER_MAX_MESSAGE_LENGTH then some msg else none

/-- C6: the maximum cluster message length is 1452 bytes:
ZT_CLUSTER_MAX_MESSAGE_LENGTH (written `(1500 - 48)` in the header)
equals 1452, and every message actually passed to the cluster send
function has length at most ZT_CLUSTER_MAX_MESSAGE_LENGTH. -/
theorem C6_cluster_message_length (msg out : List Nat)
    (h : clusterSendMessage msg = some out) :
    ZT_CLUSTER_MAX_MESSAGE_LENGTH = 1452 ∧
    out.length ≤ ZT_CLUSTER_MAX_MESSAGE_LENGTH := by
  refine ⟨rfl, ?_⟩
  unfold clusterSendMessage at h
  split at h
  · next hle =>
    cases h
    exact hle
  · exact absurd h (by simp)

/-- C6 witness: the theorem applied to a concrete one-byte message. -/
theorem C6_cluster_message_length_witness :
    clusterSendMessage [7] = some [7] ∧
    (ZT_CLUSTER_MAX_MESSAGE_LENGTH = 1452 ∧
      ([7] : List Nat).length ≤ ZT_CLUSTER_MAX_MESSAGE_LENGTH) :=
  ⟨by decide, C6_cluster_message_length [7] [7] (by decide)⟩

/-- One hop of a circuit test: the C member
`uint64_t addresses[ZT_CIRCUIT_TEST_MAX_HOP_BREADTH]` stores breadth valid
40-bit addresses; it is embedded as the list of valid addresses, breadth
being its length. -/
structure CircuitTestHop where
  flags : Nat
  addresses : List Nat
deriving DecidableEq, Repr

/-- Number of addresses in this hop (the C breadth field). -/
def CircuitTestHop.breadth (h : CircuitTestHop) : Nat := h.addresses.length

/-- The C struct ZT_CircuitTest: circuit test configuration and path. The
fixed C array `hops[ZT_CIRCUIT_TEST_MAX_HOPS]` holds hopCount valid hops;
it is embedded as the list of valid hops, hopCount being its length. -/
structure ZT_CircuitTest where
  testId : Nat
  timestamp : Nat
  credentialNetworkId : Nat
  hops : List CircuitTestHop
  reportAtEveryHop : Int
deriving DecidableEq, Repr

/-- Number of hops (the C hopCount field). -/
def ZT_CircuitTest.hopCount (t : ZT_CircuitTest) : Nat := t.hops.length

/-- Modelled from the spec: ZT_Node_circuitTestBegin (Node.cpp, not under
src/) accepts a test only when it fits the structure bounds and a packet
("error if, for example, test is too big for a packet"): at most
ZT_CIRCUIT_TEST_MAX_HOPS hops, each of breadth at most
ZT_CIRCUIT_TEST_MAX_HOP_BREADTH; an oversize test is rejected with an
error code. -/
def ZT_Node_circuitTestBegin (t : ZT_CircuitTest) : ZT_ResultCode :=
  if t.hopCount ≤ ZT_CIRCUIT_TEST_MAX_HOPS ∧
      ∀ h ∈ t.hops, h.breadth ≤ ZT_CIRCUIT_TEST_MAX_HOP_BREADTH then
    ZT_ResultCode.ZT_RESULT_OK
  else
    ZT_ResultCode.ZT_RESULT_ERROR_BAD_PARAMETER

/-- C7: circuit tests are bounded by 512 hops of at most 256 addresses
each: ZT_CIRCUIT_TEST_MAX_HOPS equals 512,
ZT_CIRCUIT_TEST_MAX_HOP_BREADTH equals 256, and every ZT_CircuitTest
accepted by ZT_Node_circuitTestBegin has hopCount at most 512 with each
hop's breadth at most 256. -/
theorem C7_circuit_test_bounds (t : ZT_CircuitTest)
    (h : ZT_Node_circuitTestBegin t = ZT_ResultCode.ZT_RESULT_OK) :
    ZT_CIRCUIT_TEST_MAX_HOPS = 512 ∧
    ZT_CIRCUIT_TEST_MAX_HOP_BREADTH = 256 ∧
    t.hopCount ≤ ZT_CIRCUIT_TEST_MAX_HOPS ∧
    ∀ hop ∈ t.hops, hop.breadth ≤ ZT_CIRCUIT_TEST_MAX_HOP_BREADTH := by
  refine ⟨rfl, rfl, ?_⟩
  unfold ZT_Node_circuitTestBegin at h
  split at h
  · next hb => exact hb
  · exact absurd h (by simp)

/-- A concrete single-hop circuit test used to witness C7. -/
def circuitTestExample : ZT_CircuitTest :=
  { testId := 1
    timestamp := 0
    credentialNetworkId := 0
    hops := [{ flags := 0, addresses := [5] }]
    reportAtEveryHop := 1 }

/-- C7 witness: the theorem applied to a concrete accepted single-hop
test. -/
theorem C7_circuit_test_bounds_witness :
    ZT_Node_circuitTestBegin circuitTestExample =
      ZT_ResultCode.ZT_RESULT_OK ∧
    (ZT_CIRCUIT_TEST_MAX_HOPS = 512 ∧
      ZT_CIRCUIT_TEST_MAX_HOP_BREADTH = 256 ∧
      circuitTestExample.hopCount ≤ ZT_CIRCUIT_TEST_MAX_HOPS ∧
      ∀ hop ∈ circuitTestExample.hops,
        hop.breadth ≤ ZT_CIRCUIT_TEST_MAX_HOP_BREADTH) :=
  ⟨by decide, C7_circuit_test_bounds circuitTestExample (by decide)⟩

/-! ## Node state, join, and multicast subscription -/

/-- State one joined virtual network keeps inside the engine. -/
structure NetworkEntry where
  nwid : Nat
  status : ZT_VirtualNetworkStatus
  multicastSubs : List ZT_MulticastGroup
deriving DecidableEq, Repr

/-- Engine-side node state visible to the join and multicast-subscribe
entry points: the table of joined networks. -/
structure NodeState where
  networks : List NetworkEntry
deriving DecidableEq, Repr

/-- A port configuration callback event emitted to the host. -/
structure ConfigCallbackEvent where
  op : ZT_VirtualNetworkConfigOperation
  nwid : Nat
deriving DecidableEq, Repr

/-- Modelled from the spec: ZT_Node_join (Node.cpp, not under src/). The
header documents: if we are already a member of the network, nothing is
done and OK is returned; otherwise a network entry is inserted with
status REQUESTING and the port config callback fires with op UP. -/
def ZT_Node_join (s : NodeState) (nwid : Nat) :
    NodeState × ZT_ResultCode × List ConfigCallbackEvent :=
  if s.networks.any (fun n => n.nwid == nwid) then
    (s, ZT_ResultCode.ZT_RESULT_OK, [])
  else
    ({ networks := s.networks ++
        [{ nwid := nwid
           status :=
             ZT_VirtualNetworkStatus.ZT_NETWORK_STATUS_REQUESTING_CONFIGURATION
           multicastSubs := [] }] },
     ZT_ResultCode.ZT_RESULT_OK,
     [{ op :=
          ZT_VirtualNetworkConfigOperation.ZT_VIRTUAL_NETWORK_CONFIG_OPERATION_UP
        nwid := nwid }])

/-- C4: ZT_Node_join is idempotent: after any join of nwid, joining nwid
again changes no state, fires no callback, and returns ZT_RESULT_OK, so
two consecutive joins of the same nwid are equivalent to one. -/
theorem C4_join_idempotent (s : NodeState) (nwid : Nat) :
    ZT_Node_join (ZT_Node_join s nwid).1 nwid =
      ((ZT_Node_join s nwid).1, ZT_ResultCode.ZT_RESULT_OK,
        ([] : List ConfigCallbackEvent)) := by
  by_cases h : s.networks.any (fun n => n.nwid == nwid) = true
  · simp [ZT_Node_join, h]
  · simp [ZT_Node_join, h, List.any_append]

/-- Modelled from the spec: Network::multicastSubscribe (Network.cpp, not
under src/): the group is added to the network's subscription set only
when it is not already present; the header documents that repeated
subscription calls have no effect. -/
def NetworkEntry.subscribe (n : NetworkEntry) (g : ZT_MulticastGroup) :
    NetworkEntry :=
  if g ∈ n.multicastSubs then n
  else { n with multicastSubs := n.multicastSubs ++ [g] }

/-- The per-entry update ZT_Node_multicastSubscribe performs on the
network table: the entry for the subscribed network gains the group, the
rest are untouched. -/
def subscribeEntry (nwid : Nat) (g : ZT_MulticastGroup)
    (n : NetworkEntry) : NetworkEntry :=
  if n.nwid == nwid then n.subscribe g else n

/-- Modelled from the spec: ZT_Node_multicastSubscribe (Node.cpp, not
under src/): when the node is a member of nwid, the group (mac, adi) is
added to that network's subscription set unless already present and OK is
returned, with no config callback generated; when not a member the state
is unchanged. -/
def ZT_Node_multicastSubscribe (s : NodeState) (nwid mac adi : Nat) :
    NodeState × ZT_ResultCode :=
  if s.networks.any (fun n => n.nwid == nwid) then
    ({ networks := s.networks.map (subscribeEntry nwid ⟨mac, adi⟩) },
     ZT_ResultCode.ZT_RESULT_OK)
  else
    (s, ZT_ResultCode.ZT_RESULT_ERROR_NETWORK_NOT_FOUND)

/-- Total number of subscriptions to group g held by entries for network
nwid in state s. -/
def subscriptionCount (s : NodeState) (nwid : Nat)
    (g : ZT_MulticastGroup) : Nat :=
  (s.networks.map (fun n =>
    if n.nwid == nwid then n.multicastSubs.count g else 0)).sum

lemma mem_subscribe (n : NetworkEntry) (g : ZT_MulticastGroup) :
    g ∈ (n.subscribe g).multicastSubs := by
  by_cases h : g ∈ n.multicastSubs
  · simp [NetworkEntry.subscribe, h]
  · simp [NetworkEntry.subscribe, h]

lemma subscribe_nwid (n : NetworkEntry) (g : ZT_MulticastGroup) :
    (n.subscribe g).nwid = n.nwid := by
  unfold NetworkEntry.subscribe
  split <;> rfl

lemma subscribe_subscribe (n : NetworkEntry) (g : ZT_MulticastGroup) :
    (n.subscribe g).subscribe g = n.subscribe g := by
  by_cases h : g ∈ n.multicastSubs
  · simp [NetworkEntry.subscribe, h]
  · simp [NetworkEntry.subscribe, h]

lemma count_subscribe (n : NetworkEntry) (g : ZT_MulticastGroup)
    (h : n.multicastSubs.count g ≤ 1) :
    (n.subscribe g).multicastSubs.count g = 1 := by
  by_cases hm : g ∈ n.multicastSubs
  · have h1 : n.multicastSubs.count g ≠ 0 := by
      intro e
      exact absurd hm (List.count_eq_zero.mp e)
    have h2 : n.subscribe g = n := by simp [NetworkEntry.subscribe, hm]
    rw [h2]
    omega
  · simp [NetworkEntry.subscribe, hm, List.count_append,
      List.count_eq_zero.mpr hm]

lemma subscribeEntry_nwid (nwid : Nat) (g : ZT_MulticastGroup)
    (n : NetworkEntry) : (subscribeEntry nwid g n).nwid = n.nwid := by
  unfold subscribeEntry
  split
  · exact subscribe_nwid n g
  · rfl

lemma subscribeEntry_idem (nwid : Nat) (g : ZT_MulticastGroup)
    (n : NetworkEntry) :
    subscribeEntry nwid g (subscribeEntry nwid g n) =
      subscribeEntry nwid g n := by
  by_cases hp : (n.nwid == nwid) = true
  · simp [subscribeEntry, hp, subscribe_nwid, subscribe_subscribe]
  · simp [subscribeEntry, hp]

lemma sum_map_ite_one (l : List NetworkEntry) (p : NetworkEntry → Bool) :
    (l.map (fun n => if p n then (1 : Nat) else 0)).sum = l.countP p := by
  induction l with
  | nil => rfl
  | cons a t ih =>
    simp only [List.map_cons, List.sum_cons, List.countP_cons, ih]
    omega

/-- C5: ZT_Node_multicastSubscribe is idempotent: on a state holding one
entry for network nwid in which the group (mac, adi) is not subscribed
more than once, subscribing twice to the same (group, ADI) on the same
network yields exactly one subscription: the second call has no effect on
the state and returns ZT_RESULT_OK. -/
theorem C5_multicastSubscribe_idempotent (s : NodeState)
    (nwid mac adi : Nat)
    (hmem : s.networks.countP (fun n => n.nwid == nwid) = 1)
    (hwf : ∀ n ∈ s.networks,
      n.multicastSubs.count ⟨mac, adi⟩ ≤ 1) :
    ZT_Node_multicastSubscribe
        (ZT_Node_multicastSubscribe s nwid mac adi).1 nwid mac adi =
      ((ZT_Node_multicastSubscribe s nwid mac adi).1,
        ZT_ResultCode.ZT_RESULT_OK) ∧
    subscriptionCount (ZT_Node_multicastSubscribe s nwid mac adi).1 nwid
      ⟨mac, adi⟩ = 1 := by
  have hany : s.networks.any (fun n => n.nwid == nwid) = true := by
    rcases List.countP_pos_iff.mp
        (by omega : 0 < s.networks.countP (fun n => n.nwid == nwid)) with
      ⟨a, ha, hpa⟩
    exact List.any_eq_true.mpr ⟨a, ha, hpa⟩
  have hfirst : (ZT_Node_multicastSubscribe s nwid mac adi).1 =
      { networks := s.networks.map (subscribeEntry nwid ⟨mac, adi⟩) } := by
    simp [ZT_Node_multicastSubscribe, hany]
  have hany2 : (s.networks.map (subscribeEntry nwid ⟨mac, adi⟩)).any
      (fun n => n.nwid == nwid) = true := by
    rw [List.any_map]
    have hcomp : ((fun n : NetworkEntry => n.nwid == nwid) ∘
        subscribeEntry nwid ⟨mac, adi⟩) =
        (fun n : NetworkEntry => n.nwid == nwid) := by
      funext n
      simp [subscribeEntry_nwid]
    rw [hcomp]
    exact hany
  have hidem : (subscribeEntry nwid (⟨mac, adi⟩ : ZT_MulticastGroup)) ∘
      subscribeEntry nwid ⟨mac, adi⟩ = subscribeEntry nwid ⟨mac, adi⟩ :=
    funext fun n => subscribeEntry_idem nwid ⟨mac, adi⟩ n
  constructor
  · rw [hfirst]
    simp [ZT_Node_multicastSubscribe, hany2, List.map_map, hidem]
  · rw [hfirst]
    unfold subscriptionCount
    rw [List.map_map]
    have hcong : ∀ n ∈ s.networks,
        ((fun n : NetworkEntry =>
            if n.nwid == nwid then n.multicastSubs.count ⟨mac, adi⟩ else 0) ∘
          subscribeEntry nwid ⟨mac, adi⟩) n =
        (fun n : NetworkEntry =>
          if (fun m : NetworkEntry => m.nwid == nwid) n then (1 : Nat)
          else 0) n := by
      intro n hn
      by_cases hp : (n.nwid == nwid) = true
      · have he : n.nwid = nwid := by simpa using hp
        simp [subscribeEntry, hp, subscribe_nwid, he,
          count_subscribe n ⟨mac, adi⟩ (hwf n hn)]
      · have hne : ¬ n.nwid = nwid := by simpa using hp
        simp [subscribeEntry, hp, hne]
    rw [List.map_congr_left hcong, sum_map_ite_one]
    exact hmem

/-- A concrete one-network state used to witness C5. -/
def nodeStateExample : NodeState :=
  { networks :=
      [{ nwid := 1
         status := ZT_VirtualNetworkStatus.ZT_NETWORK_STATUS_OK
         multicastSubs := [] }] }

/-- C5 witness: the theorem applied to a concrete state with one network
(nwid 1) and the broadcast group with ADI 0. -/
theorem C5_multicastSubscribe_idempotent_witness :
    nodeStateExample.networks.countP (fun n => n.nwid == 1) = 1 ∧
    (∀ n ∈ nodeStateExample.networks,
      n.multicastSubs.count ⟨281474976710655, 0⟩ ≤ 1) ∧
    (ZT_Node_multicastSubscribe
        (ZT_Node_multicastSubscribe nodeStateExample 1 281474976710655 0).1
        1 281474976710655 0 =
      ((ZT_Node_multicastSubscribe nodeStateExample 1 281474976710655 0).1,
        ZT_ResultCode.ZT_RESULT_OK) ∧
     subscriptionCount
        (ZT_Node_multicastSubscribe nodeStateExample 1 281474976710655 0).1
        1 ⟨281474976710655, 0⟩ = 1) :=
  ⟨by decide, by decide,
   C5_multicastSubscribe_idempotent nodeStateExample 1 281474976710655 0
     (by decide) (by decide)⟩

end ZeroTier
